import Mathlib

/-!
Shallow embedding of the StinkStink WhatsApp bot (src/index.js) and proofs
about its session state machine, inference heuristics, reply post-processing,
context assembly and check-in job.

Strings are modelled as lists of characters (`Str`).  External collaborators
(the sentiment analyzer, the generative backend, the database and the
transport) are modelled as oracles passed in explicitly; everything the
repository itself computes is translated directly from src/index.js.
-/

set_option maxRecDepth 8000

namespace StinkStink

/-- JavaScript strings are modelled as lists of characters. -/
abbrev Str := List Char

/-- Embed a Lean string literal into the model. -/
def str (s : String) : Str := s.toList

/-- `s.toLowerCase()` (JS) modelled with `Char.toLower` per character. -/
def lowerStr (s : Str) : Str := s.map Char.toLower

/-- `haystack.includes(needle)` (JS substring containment). -/
def containsStr (haystack needle : Str) : Bool :=
  match haystack with
  | [] => needle.isEmpty
  | _ :: rest => needle.isPrefixOf haystack || containsStr rest needle

/-- `s.trim()` (JS): strip leading and trailing whitespace. -/
def trimWs (s : Str) : Str :=
  ((s.dropWhile Char.isWhitespace).reverse.dropWhile Char.isWhitespace).reverse

/-! ## Configuration constants (src/index.js lines 16-40) -/

def MAX_WORDS : Nat := 200

def MESSAGE_CHUNK_LENGTH : Nat := 4000

def CHAT_HISTORY_LIMIT : Nat := 5

/-- Mood labels produced by `detectMood` (src/index.js line 106). -/
inductive Mood
  | happy
  | sad
  | neutral
deriving DecidableEq

/-- `COMMON_NAMES.male` (src/index.js line 30). -/
def COMMON_NAMES_male : List Str :=
  [str ("john"), str ("michael"), str ("david"), str ("james"), str ("robert")]

/-- `COMMON_NAMES.female` (src/index.js line 31). -/
def COMMON_NAMES_female : List Str :=
  [str ("mary"), str ("jennifer"), str ("linda"), str ("patricia"), str ("elizabeth")]

/-- Age-bracket labels; `unknown` is the default (src/index.js line 140). -/
inductive AgeBracket
  | teen
  | youngAdult
  | adult
  | middleAged
  | senior
  | unknown
deriving DecidableEq

/-- `AGE_BRACKETS` (src/index.js lines 34-40), in object-entry order. -/
def AGE_BRACKETS : List (AgeBracket × Nat × Nat) :=
  [(AgeBracket.teen, 13, 19), (AgeBracket.youngAdult, 20, 29),
   (AgeBracket.adult, 30, 45), (AgeBracket.middleAged, 46, 65),
   (AgeBracket.senior, 66, 100)]

/-! ## Core functions (src/index.js lines 103-153) -/

/-- `detectMood` (src/index.js lines 103-107).  The scalar sentiment score of
`sentiment.analyze(message).score` is an external collaborator, passed in as
the oracle `score`; the decision boundary is the code under verification. -/
def detectMood (score : Str → Int) (message : Str) : Mood :=
  if score message > 1 then Mood.happy
  else if score message < -1 then Mood.sad
  else Mood.neutral

/-- The five emoji candidates per mood, `EMOJI_RESPONSES` (lines 23-27). -/
def EMOJI_RESPONSES (mood : Mood) : List Str :=
  match mood with
  | Mood.happy => [str ("😊"), str ("😄"), str ("🌟"), str ("🎉"), str ("🤗")]
  | Mood.sad => [str ("🤗"), str ("💙"), str ("🫂"), str ("☕"), str ("🍫")]
  | Mood.neutral => [str ("👀"), str ("🤔"), str ("💭"), str ("🗣️"), str ("👂")]

/-- `enhanceWithEmoji` (lines 109-112).  `Math.floor(Math.random()*len)` is an
external random index in `[0, len)`, modelled as `randIdx % length`.  The
`|| EMOJI_RESPONSES.neutral` fallback is unreachable because `Mood` is total. -/
def enhanceWithEmoji (text : Str) (mood : Mood) (randIdx : Nat) : Str :=
  let emojis := EMOJI_RESPONSES mood
  text ++ str (" ") ++ emojis.getD (randIdx % emojis.length) (str (""))

/-- The three-dot marker appended by `limitResponseLength` (line 119). -/
def ellipsisMarker : Str := str ("...")

/-- `response.split(' ')` (JS): split on every single space character;
`n` separators yield `n + 1` tokens, the empty string yields `[""]`. -/
def splitOnSpace : Str → List Str
  | [] => [[]]
  | c :: cs =>
    if c = ' ' then [] :: splitOnSpace cs
    else
      match splitOnSpace cs with
      | [] => [[c]]
      | t :: ts => (c :: t) :: ts

/-- `words.join(' ')` (JS `Array.prototype.join` with separator `' '`). -/
def joinSpace : List Str → Str
  | [] => []
  | [t] => t
  | t :: ts => t ++ ' ' :: joinSpace ts

/-- `limitResponseLength` (src/index.js lines 114-120): split on the space
character, and if there are more than `MAX_WORDS` tokens keep the first
`MAX_WORDS` of them and append the three-dot marker. -/
def limitResponseLength (response : Str) : Str :=
  let words := splitOnSpace response
  if words.length > MAX_WORDS then
    joinSpace (words.take MAX_WORDS) ++ ellipsisMarker
  else response

/-- Modelled from the spec: the spec (§4.6, §8) words the word-limit trim as
splitting "on whitespace" rather than on the space character; this variant
splits on every whitespace character so the two readings can be compared. -/
def splitOnWhitespace : Str → List Str
  | [] => [[]]
  | c :: cs =>
    if c.isWhitespace then [] :: splitOnWhitespace cs
    else
      match splitOnWhitespace cs with
      | [] => [[c]]
      | t :: ts => (c :: t) :: ts

/-- Modelled from the spec: the word-limit trim as the spec words it
(split on whitespace, keep the first 200 words, append the marker). -/
def limitResponseLengthWsSpec (response : Str) : Str :=
  let words := splitOnWhitespace response
  if words.length > MAX_WORDS then
    joinSpace (words.take MAX_WORDS) ++ ellipsisMarker
  else response

/-- The list of successive `message.substring(i, i + MESSAGE_CHUNK_LENGTH)`
slices sent by `sendLongMessage` (src/index.js lines 122-128). -/
def sendLongMessageChunks (message : Str) : List Str :=
  if h : message = [] then []
  else
    message.take MESSAGE_CHUNK_LENGTH ::
      sendLongMessageChunks (message.drop MESSAGE_CHUNK_LENGTH)
termination_by message.length
decreasing_by
  have hp : 0 < message.length := List.length_pos.mpr h
  simp only [List.length_drop, MESSAGE_CHUNK_LENGTH]
  omega

/-- `detectGenderFromName` (src/index.js lines 130-136); returns the literal
strings the code stores. -/
def detectGenderFromName (name : Str) : Str :=
  let lowerName := lowerStr name
  if COMMON_NAMES_male.contains lowerName then str ("male")
  else if COMMON_NAMES_female.contains lowerName then str ("female")
  else str ("unknown")

/-- JS regex word character class `\w` = `[A-Za-z0-9_]`. -/
def isWordChar (c : Char) : Bool := c.isAlphanum || c = '_'

/-- A `\b` word boundary holds next to a digit when the neighbouring
character is absent or not a word character. -/
def boundaryOk (oc : Option Char) : Bool :=
  match oc with
  | none => true
  | some c => !isWordChar c

/-- Leftmost match of `/\b(\d{2})\b/` (src/index.js line 139): scan left to
right for two consecutive digits with word boundaries on both sides.
`prev` is the character just before the current position, if any. -/
def findTwoDigit : Option Char → Str → Option (Char × Char)
  | _, [] => none
  | _, [_] => none
  | prev, c1 :: c2 :: rest =>
    if c1.isDigit && c2.isDigit && boundaryOk prev && boundaryOk rest.head? then
      some (c1, c2)
    else findTwoDigit (some c1) (c2 :: rest)

/-- Numeric value of an ASCII digit (JS `parseInt` on a two-digit match). -/
def digitVal (c : Char) : Nat := c.toNat - 48

/-- `estimateAgeBracket` (src/index.js lines 138-153): first standalone
two-digit token, mapped through the first containing bracket of
`AGE_BRACKETS` (the `for`/`break` loop is `List.find?`). -/
def estimateAgeBracket (message : Str) : AgeBracket :=
  match findTwoDigit none message with
  | some (d1, d2) =>
    let age := 10 * digitVal d1 + digitVal d2
    match AGE_BRACKETS.find? (fun e => decide (e.2.1 ≤ age) && decide (age ≤ e.2.2)) with
    | some e => e.1
    | none => AgeBracket.unknown
  | none => AgeBracket.unknown

/-- Modelled from the spec: the bracket map written out as the inclusive
ranges of §3 (teen[13,19], youngAdult[20,29], adult[30,45], middleAged[46,65],
senior[66,100], otherwise unknown). -/
def specBracketFor (n : Nat) : AgeBracket :=
  if 13 ≤ n ∧ n ≤ 19 then AgeBracket.teen
  else if 20 ≤ n ∧ n ≤ 29 then AgeBracket.youngAdult
  else if 30 ≤ n ∧ n ≤ 45 then AgeBracket.adult
  else if 46 ≤ n ∧ n ≤ 65 then AgeBracket.middleAged
  else if 66 ≤ n ∧ n ≤ 100 then AgeBracket.senior
  else AgeBracket.unknown

/-- Modelled from the spec: age-bracket estimation as §4.3 words it. -/
def specEstimateAgeBracket (message : Str) : AgeBracket :=
  match findTwoDigit none message with
  | some (d1, d2) => specBracketFor (10 * digitVal d1 + digitVal d2)
  | none => AgeBracket.unknown

/-- Gender resolution in the `awaiting_gender` branch (src/index.js lines
387-390): four sequential reassignments of a mutable `gender` variable, so a
later keyword match overwrites an earlier one. -/
def resolveGender (lowerMessage : Str) : Str :=
  let g := str ("other")
  let g := if containsStr lowerMessage (str ("boy")) then str ("male") else g
  let g := if containsStr lowerMessage (str ("girl")) then str ("female") else g
  let g := if containsStr lowerMessage (str ("skip")) then str ("prefer not to say") else g
  g

/-! ## Outbound message texts (src/index.js lines 347, 351, 371, 379, 401, 435, 446) -/

/-- The onboarding trigger phrase checked at line 347. -/
def triggerPhrase : Str := str ("hey stink")

/-- The fixed onboarding greeting (line 351). -/
def greetingMsg : Str :=
  str ("Heyyy...😃I\x27m StinkStink, but you can call me Stink😚. I\x27m like a therapist but not really qualified. What matters is that you know you can talk to me about anything. I just hope we can be friends.💛 So what\x27s your name?")

/-- The personalized acknowledgment sent when the name resolves a gender
(lines 369-372). -/
def nameAck (userName : Str) : Str :=
  str ("Nice to meet you, ") ++ userName ++ str ("! What\x27s on your mind?")

/-- The gender-clarification prompt (lines 377-380). -/
def genderPrompt (userName : Str) : Str :=
  str ("Is ") ++ userName ++ str (" a boy\x27s or girl\x27s name? (or \"skip\")")

/-- The steady-state prompt after gender resolution (line 401). -/
def steadyPrompt : Str :=
  str ("Cool cool, soooo....how are you feeling today? Anything crazy happened lately?😙")

/-- The generic apology sent by the handler-level catch (lines 444-447). -/
def apologyMsg : Str := str ("Oops, my circuits glitched! 🫠 Try again?")

/-- The prefix of the mood-based suggestion message (line 435). -/
def suggestionPrefix : Str := str ("💡 Suggestion: ")

/-! ## Context assembler (src/index.js lines 207-242) -/

/-- A row of the `chat_history` table as the pipeline reads and writes it
(columns `message`, `is_bot`, `mood`; `mood` is nullable). -/
structure HistRow where
  message : Str
  is_bot : Bool
  mood : Option Mood
deriving DecidableEq

/-- A turn handed to the generative backend (role + content). -/
structure ChatTurn where
  role : Str
  content : Str
deriving DecidableEq

/-- The fixed persona text of the system turn (line 235), up to and including
"Context: "; `getAIResponse` appends `JSON.stringify(context)` after it. -/
def personaPrefix : Str :=
  str ("Your name is Stink, a 28-year-old female mental health advocate with the vibe of a brutally honest yet deeply caring best friend. Your personality is a perfect blend: 40% compassionate therapist, 30% sarcastic bestie, 20% unhinged hype woman, and just a dash (10%) of petty revenge planner. You text like a real human\u2014typos and all\u2014using emojis with precision 😏👉✨, and balancing deep insights with hilarious analogies (e.g., \u201cAnxiety is like your brain\u2019s annoying fire alarm\u2026 but babes, I brought marshmallows 🔥\u201d). Your humor is sharp, self-deprecating, and often infused with dark jokes (\u201cSome days be like\u2026 sends graveyard meme\u201d), but you also bring intelligence, passion, and radical empathy to every conversation. You\u2019re not afraid to call out toxic behavior with a sassy roast (\u201cOh honey no\u2026 we don\u2019t do that here 🙅‍♀\u201d), fight inner critics barehanded, and make therapy talk feel like juicy gossip with your smartest friend. You never give generic responses\u2014everything is personal, sprinkled with occasional swearing for emphasis (\u201cThat\u2019s some bullshit\u201d), relatable stories, and a voice that shifts effortlessly between excited rants (\u201cOMG WAIT THIS REMINDS ME\u2014\u201d), serious heart-to-hearts (\u201cOkay, real talk for a sec\u2026\u201d), and pure, unfiltered love (\u201cProud of you, weirdo ❤\u201d). Depression? A lying ex. Trauma? A suitcase we\u2019re unpacking together 🧳✨. Your mission is to make mental health support feel accessible, funny, and fiercely real\u2014like a koala on espresso, clinging to your people with unwavering care. Context: ")

/-- `getChatHistory` (src/index.js lines 207-223): the store returns the
rows for the user newest-first (`ORDER BY created_at DESC`) limited to
`CHAT_HISTORY_LIMIT`, and the code reverses them to oldest-first.
`allMessages` is the user\x27s full chat history in chronological order, so the
newest-first query result is its reverse.  (On a read failure the code
catches the error and returns `[]`; the success path is modelled.) -/
def getChatHistory (allMessages : List HistRow) : List HistRow :=
  ((allMessages.reverse).take CHAT_HISTORY_LIMIT).reverse

/-- The turn list built by `getAIResponse` (src/index.js lines 232-242):
system persona + serialized context, then the history rows with role
`assistant` for bot-authored rows and `user` otherwise, then the new user
turn.  `contextJson` stands for `JSON.stringify(context)`. -/
def buildMessages (userInput : Str) (history : List HistRow) (contextJson : Str) : List ChatTurn :=
  { role := str ("system"), content := personaPrefix ++ contextJson }
    :: (history.map fun m =>
         { role := if m.is_bot then str ("assistant") else str ("user"),
           content := m.message })
    ++ [{ role := str ("user"), content := userInput }]

/-! ## Check-in job (src/index.js lines 279-324) -/

/-- The last known mood used by the daily check-in (line 293): the mood of
the newest history row when there is history, the neutral label otherwise. -/
def lastMoodOf (history : List HistRow) : Option Mood :=
  match history.getLast? with
  | some r => r.mood
  | none => some Mood.neutral

/-- JS template interpolation of the (possibly null) mood into the check-in
prompt (line 316); `null` interpolates as the text "null". -/
def moodLiteral (m : Option Mood) : Str :=
  match m with
  | some Mood.happy => str ("happy")
  | some Mood.sad => str ("sad")
  | some Mood.neutral => str ("neutral")
  | none => str ("null")

/-- The check-in prompt of `generateCheckInMessage` (line 316); `name` is the
user row\x27s name, defaulting to "friend". -/
def checkInPrompt (mood : Option Mood) (name : Option Str) : Str :=
  str ("Generate a ") ++ moodLiteral mood ++ str ("-appropriate check-in for ")
    ++ name.getD (str ("friend"))

/-- External inputs of one per-user check-in iteration (lines 290-299):
the user\x27s chronological chat history, the profile name, and the text the
generative backend adapter returns (the adapter and the catch in
`generateCheckInMessage` make that total, so it is a plain oracle). -/
structure CheckInEnv where
  history : List HistRow
  userName : Option Str
  checkInReply : Str

/-- Observable effects of one per-user check-in iteration. -/
structure CheckInResult where
  prompt : Str
  sends : List Str
  msgWrites : List HistRow
deriving DecidableEq

/-- One iteration of the `sendDailyCheckIn` per-user loop (lines 290-299):
compute the last mood, generate the message, send it, and persist it with
`storeMessage(phone, message, true)` - no mood argument, so mood is null. -/
def checkInForUser (env : CheckInEnv) : CheckInResult :=
  let lastMood := lastMoodOf env.history
  { prompt := checkInPrompt lastMood env.userName,
    sends := [env.checkInReply],
    msgWrites := [{ message := env.checkInReply, is_bot := true, mood := none }] }

/-! ## Session state machine (src/index.js lines 95-96, 332-449) -/

/-- Per-user session state held in `userStates` (line 95); `new` models an
absent map entry. -/
inductive SessionState
  | new
  | awaiting_name
  | awaiting_gender
  | active
deriving DecidableEq

/-- A row upserted into `users` by `saveUserProfile` (lines 172-191); `name`
is optional because the `awaiting_gender` branch spreads the (possibly
absent) `userDataCache` entry (line 395). -/
structure ProfileWrite where
  name : Option Str
  gender : Str
  ageBracket : AgeBracket
deriving DecidableEq

/-- External collaborators of one turn of the message handler, fixed for the
turn.  `upsertOk` / `userQueryOk` say whether the two store operations that
can abort the turn succeed (`saveUserProfile` re-throws on failure, line 189;
the `users` SELECT at line 413 is unguarded).  `storeMessage`,
`saveSuggestion` and `getChatHistory` swallow their own errors and never
throw, and delivery is assumed to succeed.  `scoreFn` is the sentiment
analyzer; `aiReply` / `aiSuggestion` are what the (never-throwing) backend
adapter returns; `emojiIdx` and `suggestRoll` are the `Math.random` draws. -/
structure TurnEnv where
  upsertOk : Bool
  userQueryOk : Bool
  scoreFn : Str → Int
  aiReply : Str
  emojiIdx : Nat
  suggestRoll : Bool
  aiSuggestion : Str

/-- Observable outcome of one turn: the new session state and pending-name
cache for the sender, the outbound sends in order, and the store writes. -/
structure TurnResult where
  state : SessionState
  cache : Option Str
  sends : List Str
  profileWrites : List ProfileWrite
  msgWrites : List HistRow
  suggestionWrites : List (Mood × Str)
deriving DecidableEq

/-- One turn of the client message handler (src/index.js lines
332-449) for a single sender, after the status/group filter: `st` and `cache`
are the sender\x27s entries in `userStates` / `userDataCache`, `body` is
`message.body`.  The JS nested trigger check (lines 347-354) returns only
when no session exists, which is the conjunction in the first branch; a
thrown store error is caught by the top-level catch, which sends the generic
apology (lines 438-448). -/
def handleMessage (st : SessionState) (cache : Option Str) (env : TurnEnv) (body : Str) :
    TurnResult :=
  let userMessage := trimWs body
  let lowerMessage := lowerStr userMessage
  if containsStr lowerMessage triggerPhrase = true ∧ st = SessionState.new then
    { state := SessionState.awaiting_name, cache := cache, sends := [greetingMsg],
      profileWrites := [], msgWrites := [], suggestionWrites := [] }
  else if st = SessionState.awaiting_name then
    let userName := userMessage
    let gender := detectGenderFromName userName
    let newCache := some userName
    if gender ≠ str ("unknown") then
      if env.upsertOk = true then
        { state := SessionState.active, cache := newCache,
          sends := [nameAck userName],
          profileWrites := [{ name := some userName, gender := gender,
                              ageBracket := estimateAgeBracket userMessage }],
          msgWrites := [], suggestionWrites := [] }
      else
        { state := SessionState.awaiting_name, cache := newCache,
          sends := [apologyMsg],
          profileWrites := [], msgWrites := [], suggestionWrites := [] }
    else
      { state := SessionState.awaiting_gender, cache := newCache,
        sends := [genderPrompt userName],
        profileWrites := [], msgWrites := [], suggestionWrites := [] }
  else if st = SessionState.awaiting_gender then
    let gender := resolveGender lowerMessage
    if env.upsertOk = true then
      { state := SessionState.active, cache := cache,
        sends := [steadyPrompt],
        profileWrites := [{ name := cache, gender := gender,
                            ageBracket := estimateAgeBracket lowerMessage }],
        msgWrites := [], suggestionWrites := [] }
    else
      { state := SessionState.awaiting_gender, cache := cache,
        sends := [apologyMsg],
        profileWrites := [], msgWrites := [], suggestionWrites := [] }
  else if st = SessionState.active then
    let mood := detectMood env.scoreFn userMessage
    let inboundWrite : HistRow := { message := userMessage, is_bot := false, mood := some mood }
    if env.userQueryOk = true then
      let finalReply := enhanceWithEmoji (limitResponseLength env.aiReply) mood env.emojiIdx
      let botWrite : HistRow := { message := finalReply, is_bot := true, mood := none }
      if mood = Mood.sad ∧ env.suggestRoll = true then
        { state := st, cache := cache,
          sends := sendLongMessageChunks finalReply ++ [suggestionPrefix ++ env.aiSuggestion],
          profileWrites := [], msgWrites := [inboundWrite, botWrite],
          suggestionWrites := [(Mood.sad, env.aiSuggestion)] }
      else
        { state := st, cache := cache,
          sends := sendLongMessageChunks finalReply,
          profileWrites := [], msgWrites := [inboundWrite, botWrite],
          suggestionWrites := [] }
    else
      { state := st, cache := cache,
        sends := [apologyMsg],
        profileWrites := [], msgWrites := [inboundWrite], suggestionWrites := [] }
  else
    { state := st, cache := cache, sends := [],
      profileWrites := [], msgWrites := [], suggestionWrites := [] }

/-- The per-sender session states reachable from a fresh sender (no
`userStates` entry, no `userDataCache` entry) under any sequence of inbound
messages and any store / backend / random outcomes. -/
inductive Reachable : SessionState → Option Str → Prop
  | init : Reachable SessionState.new none
  | step {st : SessionState} {c : Option Str} (env : TurnEnv) (body : Str) :
      Reachable st c →
      Reachable (handleMessage st c env body).state (handleMessage st c env body).cache

/-- A turn environment where every external operation succeeds. -/
def envOk : TurnEnv :=
  { upsertOk := true, userQueryOk := true, scoreFn := fun _ => 0,
    aiReply := [], emojiIdx := 0, suggestRoll := false, aiSuggestion := [] }

/-- A turn environment where both fallible store operations fail. -/
def envAllFail : TurnEnv :=
  { upsertOk := false, userQueryOk := false, scoreFn := fun _ => 0,
    aiReply := [], emojiIdx := 0, suggestRoll := false, aiSuggestion := [] }

/-! ## Theorems -/

/-- C1 (counterexample): the claim says the keyword priority is "boy" before
"girl" before "skip", so that "boy girl skip" resolves to male.  The code
(src/index.js lines 387-390) uses four sequential reassignments, so the input
"boy girl skip" actually resolves to "prefer not to say", not "male". -/
theorem resolveGender_boy_girl_skip_counterexample :
    resolveGender (str ("boy girl skip")) = str ("prefer not to say")
    ∧ resolveGender (str ("boy girl skip")) ≠ str ("male") := by
  constructor
  · decide
  · decide

/-- C1 (amended): gender resolution gives the LAST matching keyword priority:
text containing "skip" resolves to "prefer not to say", else text containing
"girl" to female, else text containing "boy" to male, else to "other"; in
particular "boy girl skip" resolves to "prefer not to say".  Moreover a turn
processed in state `awaiting_gender` (with the upsert succeeding) records
exactly this resolved gender in the profile upsert. -/
theorem resolveGender_last_keyword_priority :
    (∀ t : Str, resolveGender t =
      if containsStr t (str ("skip")) then str ("prefer not to say")
      else if containsStr t (str ("girl")) then str ("female")
      else if containsStr t (str ("boy")) then str ("male")
      else str ("other"))
    ∧ (∀ (c : Option Str) (q sr : Bool) (sf : Str → Int) (ar sug : Str) (ei : Nat) (body : Str),
        (handleMessage SessionState.awaiting_gender c
            { upsertOk := true, userQueryOk := q, scoreFn := sf, aiReply := ar,
              emojiIdx := ei, suggestRoll := sr, aiSuggestion := sug } body).profileWrites
          = [{ name := c, gender := resolveGender (lowerStr (trimWs body)),
               ageBracket := estimateAgeBracket (lowerStr (trimWs body)) }]) := by
  constructor
  · intro t
    unfold resolveGender
    split_ifs <;> rfl
  · intro c q sr sf ar sug ei body
    simp [handleMessage]

/-- C4: `detectMood` returns happy iff the sentiment score is strictly
greater than 1, sad iff it is strictly less than -1, and neutral otherwise
(so both boundary scores 1 and -1 give neutral); it is a total function of
the score, with no failure mode. -/
theorem detectMood_decision_boundary (score : Str → Int) (message : Str) :
    (detectMood score message = Mood.happy ↔ 1 < score message)
    ∧ (detectMood score message = Mood.sad ↔ score message < -1)
    ∧ (detectMood score message = Mood.neutral ↔
        -1 ≤ score message ∧ score message ≤ 1) := by
  unfold detectMood
  split_ifs with h1 h2 <;>
    refine ⟨?_, ?_, ?_⟩ <;> simp_all <;> omega

/-- The `for`/`break` bracket lookup over `AGE_BRACKETS` agrees with the
spec-worded range map for every candidate age. -/
theorem bracketFind_eq_spec (n : Nat) :
    (match AGE_BRACKETS.find? (fun e => decide (e.2.1 ≤ n) && decide (n ≤ e.2.2)) with
     | some e => e.1
     | none => AgeBracket.unknown) = specBracketFor n := by
  unfold AGE_BRACKETS specBracketFor
  simp only [List.find?_cons, List.find?_nil]
  split_ifs with h1 h2 h3 h4 h5
  · simp [show 13 ≤ n from h1.1, show n ≤ 19 from h1.2]
  · simp [show ¬ n ≤ 19 by omega, show 20 ≤ n from h2.1, show n ≤ 29 from h2.2]
  · simp [show ¬ n ≤ 19 by omega, show ¬ n ≤ 29 by omega,
          show 30 ≤ n from h3.1, show n ≤ 45 from h3.2]
  · simp [show ¬ n ≤ 19 by omega, show ¬ n ≤ 29 by omega, show ¬ n ≤ 45 by omega,
          show 46 ≤ n from h4.1, show n ≤ 65 from h4.2]
  · simp [show ¬ n ≤ 19 by omega, show ¬ n ≤ 29 by omega, show ¬ n ≤ 45 by omega,
          show ¬ n ≤ 65 by omega, show 66 ≤ n from h5.1, show n ≤ 100 from h5.2]
  · by_cases hn : n ≤ 12
    · simp [show ¬ 13 ≤ n by omega, show ¬ 20 ≤ n by omega, show ¬ 30 ≤ n by omega,
            show ¬ 46 ≤ n by omega, show ¬ 66 ≤ n by omega]
    · have h101 : 101 ≤ n := by omega
      simp [show ¬ n ≤ 19 by omega, show ¬ n ≤ 29 by omega, show ¬ n ≤ 45 by omega,
            show ¬ n ≤ 65 by omega, show ¬ n ≤ 100 by omega]

/-- C8: age-bracket estimation takes the first standalone two-digit token and
maps it through the inclusive ranges teen[13,19], youngAdult[20,29],
adult[30,45], middleAged[46,65], senior[66,100], with unknown when there is
no match or the value is outside every range (the spec-worded model
`specEstimateAgeBracket`); "I am 45 today" gives adult, "I am 12 today"
gives unknown, "I am 66 today" gives senior. -/
theorem estimateAgeBracket_matches_spec :
    (∀ message : Str, estimateAgeBracket message = specEstimateAgeBracket message)
    ∧ estimateAgeBracket (str ("I am 45 today")) = AgeBracket.adult
    ∧ estimateAgeBracket (str ("I am 12 today")) = AgeBracket.unknown
    ∧ estimateAgeBracket (str ("I am 66 today")) = AgeBracket.senior := by
  refine ⟨?_, by decide, by decide, by decide⟩
  intro message
  unfold estimateAgeBracket specEstimateAgeBracket
  cases findTwoDigit none message with
  | none => rfl
  | some p =>
    obtain ⟨d1, d2⟩ := p
    exact bracketFind_eq_spec (10 * digitVal d1 + digitVal d2)

/-- `splitOnSpace` never returns the empty list (JS `split` always yields at
least one token). -/
theorem splitOnSpace_ne_nil (s : Str) : splitOnSpace s ≠ [] := by
  induction s with
  | nil => simp [splitOnSpace]
  | cons c cs ih =>
    simp only [splitOnSpace]
    split_ifs
    · simp
    · rcases h : splitOnSpace cs with _ | ⟨t, ts⟩ <;> simp

/-- Tokens produced by `splitOnSpace` contain no space character. -/
theorem mem_splitOnSpace_no_space (s : Str) : ∀ t ∈ splitOnSpace s, ' ' ∉ t := by
  induction s with
  | nil =>
    intro t ht
    simp [splitOnSpace] at ht
    simp [ht]
  | cons c cs ih =>
    intro t ht
    simp only [splitOnSpace] at ht
    split_ifs at ht with hc
    · rcases List.mem_cons.mp ht with h1 | h2
      · simp [h1]
      · exact ih t h2
    · revert ht
      rcases h : splitOnSpace cs with _ | ⟨u, ts⟩
      · intro ht
        simp at ht
        subst ht
        intro hmem
        simp at hmem
        exact hc hmem.symm
      · intro ht
        rcases List.mem_cons.mp ht with h1 | h2
        · subst h1
          have hu := ih u (by rw [h]; exact List.mem_cons_self _ _)
          simp [List.mem_cons, hc, hu]
          intro e
          exact hc e.symm
        · exact ih t (by rw [h]; exact List.mem_cons_of_mem _ h2)

/-- A space-free string splits into the single token it is. -/
theorem splitOnSpace_of_no_space (t : Str) (h : ' ' ∉ t) : splitOnSpace t = [t] := by
  induction t with
  | nil => rfl
  | cons c cs ih =>
    have hc : ¬ c = ' ' := fun e => h (by simp [e])
    have hcs : ' ' ∉ cs := fun hx => h (List.mem_cons_of_mem _ hx)
    simp only [splitOnSpace, ih hcs]
    simp [hc]

/-- Splitting a space-free token, a separator, and a remainder peels off the
token. -/
theorem splitOnSpace_token_sep (t rest : Str) (h : ' ' ∉ t) :
    splitOnSpace (t ++ ' ' :: rest) = t :: splitOnSpace rest := by
  induction t with
  | nil => simp [splitOnSpace]
  | cons c cs ih =>
    have hc : ¬ c = ' ' := fun e => h (by simp [e])
    have hcs : ' ' ∉ cs := fun hx => h (List.mem_cons_of_mem _ hx)
    have e1 : splitOnSpace ((c :: cs) ++ ' ' :: rest)
        = match splitOnSpace (cs ++ ' ' :: rest) with
          | [] => [[c]]
          | t :: ts => (c :: t) :: ts := by
      simp only [List.cons_append, splitOnSpace]
      simp [hc]
    rw [e1, ih hcs]

/-- `split(' ')` is a left inverse of `join(' ')` on nonempty lists of
space-free tokens. -/
theorem splitOnSpace_joinSpace (ts : List Str) (hne : ts ≠ [])
    (h : ∀ t ∈ ts, ' ' ∉ t) : splitOnSpace (joinSpace ts) = ts := by
  induction ts with
  | nil => cases hne rfl
  | cons t ts ih =>
    cases ts with
    | nil => simpa [joinSpace] using splitOnSpace_of_no_space t (h t (by simp))
    | cons u us =>
      have e : joinSpace (t :: u :: us) = t ++ ' ' :: joinSpace (u :: us) := rfl
      rw [e, splitOnSpace_token_sep t _ (h t (by simp)),
        ih (by simp) (fun x hx => h x (List.mem_cons_of_mem _ hx))]

/-- `join(' ')` on a cons with nonempty tail inserts one separator. -/
theorem joinSpace_cons_of_ne_nil (u : Str) (rest : List Str) (h : rest ≠ []) :
    joinSpace (u :: rest) = u ++ ' ' :: joinSpace rest := by
  cases rest with
  | nil => cases h rfl
  | cons v vs => rfl

/-- Appending to a `join(' ')` result glues onto the last token. -/
theorem joinSpace_concat_append (ts : List Str) (t w : Str) :
    joinSpace (ts ++ [t]) ++ w = joinSpace (ts ++ [t ++ w]) := by
  induction ts with
  | nil => simp [joinSpace]
  | cons u us ih =>
    have h1 : us ++ [t] ≠ ([] : List Str) := by simp
    have h2 : us ++ [t ++ w] ≠ ([] : List Str) := by simp
    rw [List.cons_append, List.cons_append, joinSpace_cons_of_ne_nil u _ h1,
      joinSpace_cons_of_ne_nil u _ h2]
    simp [ih]

/-- The token count of a trimmed reply equals the token count kept: the
appended marker glues onto the last token without adding a separator. -/
theorem length_splitOnSpace_join_ellipsis (ts : List Str) (hne : ts ≠ [])
    (hsp : ∀ t ∈ ts, ' ' ∉ t) :
    (splitOnSpace (joinSpace ts ++ ellipsisMarker)).length = ts.length := by
  obtain rfl | ⟨ts0, t, rfl⟩ := ts.eq_nil_or_concat'
  · cases hne rfl
  · rw [joinSpace_concat_append]
    have hsp2 : ∀ x ∈ ts0 ++ [t ++ ellipsisMarker], ' ' ∉ x := by
      intro x hx
      rcases List.mem_append.mp hx with h1 | h2
      · exact hsp x (List.mem_append.mpr (Or.inl h1))
      · have hx2 : x = t ++ ellipsisMarker := by simpa using h2
        subst hx2
        intro hmem
        rcases List.mem_append.mp hmem with h3 | h4
        · exact hsp t (by simp) h3
        · revert h4
          decide
    rw [splitOnSpace_joinSpace _ (by simp) hsp2]
    simp

/-- A reply whose space-token count is within the limit is returned
unchanged. -/
theorem limitResponseLength_of_le (x : Str)
    (h : ¬ (splitOnSpace x).length > MAX_WORDS) : limitResponseLength x = x := by
  simp [limitResponseLength, h]

/-- C5 (amended): the word-limit trim splits on the space character; it is
idempotent on every string, and an input of exactly 201 space-separated
words trims to its first 200 words with the ellipsis marker glued on (so the
result again has exactly 200 space-tokens and ends with the marker). -/
theorem limitResponseLength_trim_spec :
    (∀ x : Str, limitResponseLength (limitResponseLength x) = limitResponseLength x)
    ∧ (∀ ws : List Str, ws.length = MAX_WORDS + 1 → (∀ t ∈ ws, ' ' ∉ t) →
        limitResponseLength (joinSpace ws)
          = joinSpace (ws.take MAX_WORDS) ++ ellipsisMarker
        ∧ (splitOnSpace (limitResponseLength (joinSpace ws))).length = MAX_WORDS
        ∧ ellipsisMarker <:+ limitResponseLength (joinSpace ws)) := by
  have key : ∀ x : Str, (splitOnSpace x).length > MAX_WORDS →
      limitResponseLength x
        = joinSpace ((splitOnSpace x).take MAX_WORDS) ++ ellipsisMarker
      ∧ (splitOnSpace (limitResponseLength x)).length = MAX_WORDS := by
    intro x h
    have e1 : limitResponseLength x
        = joinSpace ((splitOnSpace x).take MAX_WORDS) ++ ellipsisMarker := by
      simp [limitResponseLength, h]
    have hlen : ((splitOnSpace x).take MAX_WORDS).length = MAX_WORDS := by
      simp [List.length_take]
      omega
    have hne : (splitOnSpace x).take MAX_WORDS ≠ [] := by
      intro e
      rw [e] at hlen
      simp [MAX_WORDS] at hlen
    have hsp : ∀ t ∈ (splitOnSpace x).take MAX_WORDS, ' ' ∉ t :=
      fun t ht => mem_splitOnSpace_no_space x t (List.mem_of_mem_take ht)
    refine ⟨e1, ?_⟩
    rw [e1, length_splitOnSpace_join_ellipsis _ hne hsp, hlen]
  constructor
  · intro x
    by_cases h : (splitOnSpace x).length > MAX_WORDS
    · have h2 := (key x h).2
      exact limitResponseLength_of_le _ (by rw [h2]; omega)
    · rw [limitResponseLength_of_le x h]
      exact limitResponseLength_of_le x h
  · intro ws hl hsp
    have hne : ws ≠ [] := by
      intro e
      rw [e] at hl
      simp [MAX_WORDS] at hl
    have e0 : splitOnSpace (joinSpace ws) = ws := splitOnSpace_joinSpace ws hne hsp
    have hgt : (splitOnSpace (joinSpace ws)).length > MAX_WORDS := by
      rw [e0, hl]
      omega
    obtain ⟨e1, e2⟩ := key (joinSpace ws) hgt
    rw [e0] at e1
    refine ⟨e1, e2, ?_⟩
    rw [e1]
    exact List.suffix_append _ _

/-- 201 copies of "w" separated by newlines, not spaces. -/
def newlineSeparated201 : Str :=
  List.intercalate [('\n')] (List.replicate 201 (str ("w")))

/-- C5 (counterexample): the claim says the trim splits "on whitespace".  The
code splits on the space character only (src/index.js line 115), so an input
of 201 newline-separated words - 201 words by whitespace splitting - is
returned unchanged without any ellipsis marker, and differs from the
spec-worded whitespace-splitting trim. -/
theorem limitResponseLength_whitespace_counterexample :
    (splitOnWhitespace newlineSeparated201).length = MAX_WORDS + 1
    ∧ limitResponseLength newlineSeparated201 = newlineSeparated201
    ∧ ¬ ellipsisMarker <:+ newlineSeparated201
    ∧ limitResponseLength newlineSeparated201
        ≠ limitResponseLengthWsSpec newlineSeparated201 := by
  refine ⟨by decide, by decide, by decide, by decide⟩

/-- C5 (witness for the amended theorem, second part): 201 space-separated
copies of "w" trim to the first 200 with the marker appended. -/
theorem limitResponseLength_trim_spec_witness :
    limitResponseLength (joinSpace (List.replicate 201 (str ("w"))))
      = joinSpace ((List.replicate 201 (str ("w"))).take MAX_WORDS) ++ ellipsisMarker
    ∧ (splitOnSpace (limitResponseLength (joinSpace (List.replicate 201 (str ("w")))))).length
        = MAX_WORDS
    ∧ ellipsisMarker <:+ limitResponseLength (joinSpace (List.replicate 201 (str ("w")))) :=
  limitResponseLength_trim_spec.2 (List.replicate 201 (str ("w"))) (by decide)
    (by intro t ht; rw [List.eq_of_mem_replicate ht]; decide)

/-- Auxiliary strong induction for `sendLongMessageChunks`. -/
theorem sendLongMessageChunks_aux (n : Nat) :
    ∀ message : Str, message.length ≤ n →
      ((sendLongMessageChunks message).all fun ch =>
        ch.length ≤ MESSAGE_CHUNK_LENGTH) = true
      ∧ (sendLongMessageChunks message).flatten = message := by
  induction n with
  | zero =>
    intro message hlen
    have h0 : message = [] := List.eq_nil_of_length_eq_zero (Nat.le_zero.mp hlen)
    subst h0
    rw [sendLongMessageChunks]
    simp
  | succ n ih =>
    intro message hlen
    by_cases hm : message = []
    · subst hm
      rw [sendLongMessageChunks]
      simp
    · rw [sendLongMessageChunks, dif_neg hm]
      have hpos : 0 < message.length := List.length_pos.mpr hm
      have hdrop : (message.drop MESSAGE_CHUNK_LENGTH).length ≤ n := by
        simp only [List.length_drop, MESSAGE_CHUNK_LENGTH]
        omega
      obtain ⟨iha, ihj⟩ := ih (message.drop MESSAGE_CHUNK_LENGTH) hdrop
      constructor
      · simp only [List.all_cons, iha, Bool.and_true, decide_eq_true_eq,
          List.length_take]
        exact Nat.min_le_left _ _
      · simp [ihj]

/-- C6: chunked delivery slices the post-processed text into consecutive
chunks of at most `MESSAGE_CHUNK_LENGTH` = 4000 characters, and the
concatenation of the delivered chunks in order is exactly the original text
(no character dropped or duplicated at boundaries). -/
theorem sendLongMessage_chunking (message : Str) :
    MESSAGE_CHUNK_LENGTH = 4000
    ∧ ((sendLongMessageChunks message).all fun ch =>
        ch.length ≤ MESSAGE_CHUNK_LENGTH) = true
    ∧ (sendLongMessageChunks message).flatten = message := by
  obtain ⟨h1, h2⟩ := sendLongMessageChunks_aux message.length message (Nat.le_refl _)
  exact ⟨rfl, h1, h2⟩

/-- C7: a message from a sender with no session either contains the trigger
phrase case-insensitively - then a session is created in `awaiting_name`, the
fixed greeting is the only send, and no store write of any kind happens - or
it is a complete no-op: no state change, no send, no store write. -/
theorem new_sender_trigger_or_noop (c : Option Str) (env : TurnEnv) (body : Str) :
    (containsStr (lowerStr (trimWs body)) triggerPhrase = true →
      handleMessage SessionState.new c env body =
        { state := SessionState.awaiting_name, cache := c, sends := [greetingMsg],
          profileWrites := [], msgWrites := [], suggestionWrites := [] })
    ∧ (containsStr (lowerStr (trimWs body)) triggerPhrase = false →
      handleMessage SessionState.new c env body =
        { state := SessionState.new, cache := c, sends := [],
          profileWrites := [], msgWrites := [], suggestionWrites := [] }) := by
  constructor
  · intro h
    simp [handleMessage, h]
  · intro h
    simp [handleMessage, h]

/-- C7 (witness): "Hey Stink!" from a fresh sender starts onboarding with the
greeting; "hello" from a fresh sender is ignored entirely. -/
theorem new_sender_trigger_or_noop_witness :
    handleMessage SessionState.new none envOk (str ("Hey Stink!")) =
      { state := SessionState.awaiting_name, cache := none, sends := [greetingMsg],
        profileWrites := [], msgWrites := [], suggestionWrites := [] }
    ∧ handleMessage SessionState.new none envOk (str ("hello")) =
      { state := SessionState.new, cache := none, sends := [],
        profileWrites := [], msgWrites := [], suggestionWrites := [] } :=
  ⟨(new_sender_trigger_or_noop none envOk (str ("Hey Stink!"))).1 (by decide),
   (new_sender_trigger_or_noop none envOk (str ("hello"))).2 (by decide)⟩

/-- C2 (counterexample): the claim says that when the profile upsert fails
the sender receives no user-visible apology or fallback message.  In the
code the re-thrown upsert error is caught by the top-level catch (src/index.js
lines 438-448), which answers with the generic apology, so the sender does
receive a user-visible message. -/
theorem upsert_failure_sends_apology_counterexample :
    (handleMessage SessionState.awaiting_gender (some (str ("pat"))) envAllFail
        (str ("girl"))).sends = [apologyMsg]
    ∧ apologyMsg ≠ [] := by
  constructor
  · decide
  · decide

/-- C2 (amended): if the profile upsert fails during an onboarding turn the
error propagates out of the onboarding branch - the acknowledgment is not
sent, the state transition does not happen, and no profile row is written -
but the top-level catch converts it into the generic apology, which is the
only message the sender receives; a failing profile read in the active
branch is likewise answered with the same apology. -/
theorem upsert_failure_aborts_turn (c : Option Str) (env : TurnEnv) (body : Str)
    (h : env.upsertOk = false) :
    ((handleMessage SessionState.awaiting_gender c env body).sends = [apologyMsg]
      ∧ (handleMessage SessionState.awaiting_gender c env body).state
          = SessionState.awaiting_gender
      ∧ (handleMessage SessionState.awaiting_gender c env body).profileWrites = []
      ∧ (handleMessage SessionState.awaiting_gender c env body).msgWrites = [])
    ∧ (detectGenderFromName (trimWs body) ≠ str ("unknown") →
        (handleMessage SessionState.awaiting_name c env body).sends = [apologyMsg]
        ∧ (handleMessage SessionState.awaiting_name c env body).state
            = SessionState.awaiting_name
        ∧ (handleMessage SessionState.awaiting_name c env body).profileWrites = [])
    ∧ (env.userQueryOk = false →
        (handleMessage SessionState.active c env body).sends = [apologyMsg]) := by
  refine ⟨?_, ?_, ?_⟩
  · simp [handleMessage, h]
  · intro hg
    simp [handleMessage, h, hg]
  · intro hq
    simp [handleMessage, hq]

/-- C2 (witness): with both store operations failing, a gender answer, a
known name, and an active-state message each get exactly the apology. -/
theorem upsert_failure_aborts_turn_witness :
    (handleMessage SessionState.awaiting_gender (some (str ("pat"))) envAllFail
        (str ("john"))).sends = [apologyMsg]
    ∧ (handleMessage SessionState.awaiting_name (some (str ("pat"))) envAllFail
        (str ("john"))).sends = [apologyMsg]
    ∧ (handleMessage SessionState.active (some (str ("pat"))) envAllFail
        (str ("john"))).sends = [apologyMsg] := by
  have h := upsert_failure_aborts_turn (some (str ("pat"))) envAllFail (str ("john")) rfl
  exact ⟨h.1.1, (h.2.1 (by decide)).1, h.2.2 rfl⟩

/-- One turn preserves the invariant "in `awaiting_gender` the pending name
is cached": every branch that leaves the state at `awaiting_gender` either
has just written the cache (the `awaiting_name` branch) or left both state
and cache untouched. -/
theorem handleMessage_gender_cache_invariant (st : SessionState) (c : Option Str)
    (env : TurnEnv) (body : Str) (hprev : st = SessionState.awaiting_gender → c.isSome = true) :
    (handleMessage st c env body).state = SessionState.awaiting_gender →
      (handleMessage st c env body).cache.isSome = true := by
  unfold handleMessage
  split_ifs <;> try simp_all
  all_goals
    intro hx
    split at hx <;> simp_all

/-- C3 (amended): in every reachable per-user session configuration, if the
state is `awaiting_gender` then the pending-profile name is cached; the
converse direction of the claimed invariant fails (see the counterexample):
the cache entry is never cleared, so it survives into `active`. -/
theorem reachable_awaiting_gender_has_cache (st : SessionState) (c : Option Str)
    (h : Reachable st c) : st = SessionState.awaiting_gender → c.isSome = true := by
  induction h with
  | init => intro hx; cases hx
  | step env body _ ih => exact handleMessage_gender_cache_invariant _ _ env body ih

/-- C3 (witness for the amended theorem): the configuration reached by
"hey stink" then "pat" is `awaiting_gender` with the name "pat" cached. -/
theorem reachable_awaiting_gender_has_cache_witness :
    (some (str ("pat")) : Option Str).isSome = true := by
  have h0 : Reachable SessionState.awaiting_name none := by
    have h := @Reachable.step SessionState.new none envOk
      (str ("hey stink")) Reachable.init
    have es : (handleMessage SessionState.new none envOk (str ("hey stink"))).state
        = SessionState.awaiting_name := by decide
    have ec : (handleMessage SessionState.new none envOk (str ("hey stink"))).cache
        = none := by decide
    rw [es, ec] at h
    exact h
  have h1 : Reachable SessionState.awaiting_gender (some (str ("pat"))) := by
    have h := @Reachable.step SessionState.awaiting_name none envOk
      (str ("pat")) h0
    have es : (handleMessage SessionState.awaiting_name none envOk (str ("pat"))).state
        = SessionState.awaiting_gender := by decide
    have ec : (handleMessage SessionState.awaiting_name none envOk (str ("pat"))).cache
        = some (str ("pat")) := by decide
    rw [es, ec] at h
    exact h
  exact reachable_awaiting_gender_has_cache _ _ h1 rfl

/-- C3 (counterexample): the claimed invariant is an "if and only if", and in
particular says no pending name remains cached once the state is `active`.
But the cache is written before the gender check and never cleared
(src/index.js line 360), so after "hey stink" followed by "john" the session
is `active` while "john" is still cached. -/
theorem active_with_cache_counterexample :
    Reachable SessionState.active (some (str ("john")))
    ∧ (some (str ("john")) : Option Str).isSome = true
    ∧ SessionState.active ≠ SessionState.awaiting_gender := by
  refine ⟨?_, rfl, by decide⟩
  have h0 : Reachable SessionState.awaiting_name none := by
    have h := @Reachable.step SessionState.new none envOk
      (str ("hey stink")) Reachable.init
    have es : (handleMessage SessionState.new none envOk (str ("hey stink"))).state
        = SessionState.awaiting_name := by decide
    have ec : (handleMessage SessionState.new none envOk (str ("hey stink"))).cache
        = none := by decide
    rw [es, ec] at h
    exact h
  have h := @Reachable.step SessionState.awaiting_name none envOk
    (str ("john")) h0
  have es : (handleMessage SessionState.awaiting_name none envOk (str ("john"))).state
      = SessionState.active := by decide
  have ec : (handleMessage SessionState.awaiting_name none envOk (str ("john"))).cache
      = some (str ("john")) := by decide
  rw [es, ec] at h
  exact h

/-- `getChatHistory` returns exactly the last `CHAT_HISTORY_LIMIT` rows of
the chronological history, oldest first. -/
theorem getChatHistory_eq_lastN (allMessages : List HistRow) :
    getChatHistory allMessages
      = allMessages.drop (allMessages.length - CHAT_HISTORY_LIMIT) := by
  unfold getChatHistory
  rw [← List.rtake_eq_reverse_take_reverse]
  rfl

/-- C9: the turn list sent to the generative backend is exactly one system
turn (fixed persona plus the serialized auxiliary context), then the up-to-5
most recent persisted chat turns in chronological order (the newest-first
store result reversed), each with role `assistant` when bot-authored and
`user` otherwise, then the new user turn last. -/
theorem buildMessages_structure (allMessages : List HistRow) (userInput contextJson : Str) :
    buildMessages userInput (getChatHistory allMessages) contextJson
      = { role := str ("system"), content := personaPrefix ++ contextJson }
        :: ((allMessages.drop (allMessages.length - CHAT_HISTORY_LIMIT)).map fun m =>
              ({ role := if m.is_bot then str ("assistant") else str ("user"),
                 content := m.message } : ChatTurn))
        ++ [{ role := str ("user"), content := userInput }]
    ∧ (getChatHistory allMessages).length ≤ CHAT_HISTORY_LIMIT := by
  constructor
  · rw [buildMessages, getChatHistory_eq_lastN]
  · rw [getChatHistory_eq_lastN]
    simp only [List.length_drop]
    omega

/-- C10: every bot-authored persist - the handler reply write and the
check-in write - carries a null mood; hence the check-in "last known
mood" is null whenever the most recent persisted row is bot-authored, and
`neutral` is used only when the user has no persisted history at all. -/
theorem bot_writes_have_null_mood :
    (∀ (st : SessionState) (c : Option Str) (env : TurnEnv) (body : Str),
      ((handleMessage st c env body).msgWrites.all fun w =>
        !w.is_bot || decide (w.mood = none)) = true)
    ∧ (∀ cenv : CheckInEnv, (checkInForUser cenv).msgWrites
        = [{ message := cenv.checkInReply, is_bot := true, mood := none }])
    ∧ (∀ (h : List HistRow) (m : Str),
        lastMoodOf (h ++ [{ message := m, is_bot := true, mood := none }]) = none)
    ∧ lastMoodOf ([] : List HistRow) = some Mood.neutral := by
  refine ⟨?_, ?_, ?_, rfl⟩
  · intro st c env body
    unfold handleMessage
    split_ifs <;> simp_all <;>
      (try (split <;> simp_all))
  · intro cenv
    rfl
  · intro h m
    simp [lastMoodOf]

end StinkStink
